import Mathlib

/-!
# Verification of the ec_portal push-notification subsystem

Shallow embedding of the push-notification client code of the repository:

* the service-worker in `src/unnamed/part_002` (push rendering, click
  dispatch, subscription-change handling),
* the simpler worker variant in `src/frontend/static/js/service-worker.js`,
* the page-side `NotificationService` in
  `src/frontend/src/services/notification.service.ts`,
* the page-side `PushNotificationClient` in `src/unnamed/part_023`.

JavaScript values flowing through the handlers are modelled by `JVal`
(with an explicit `jsUndefined` value for JavaScript's missing-property value); the outcome of
each external asynchronous call (fetch, platform subscribe, …) is an
explicit `Except Unit _` input, and each operation returns, besides its
result, a trace of the external calls it issued.
-/

/-- A JavaScript value as seen by the worker handlers.  `jsUndefined` stands for
the missing-property value; numbers are modelled as integers, which is
enough for the truthiness tests the code performs. -/
inductive JVal where
  | jsUndefined
  | null
  | bool (b : Bool)
  | num (n : Int)
  | str (s : String)
  | arr (xs : List JVal)
  | obj (fields : List (String × JVal))

/-- Property lookup `v[k]`: on an object, the first binding of the key;
on anything else (as for the primitive values the handlers can receive)
the result is `undefined`. -/
def jGet (v : JVal) (k : String) : JVal :=
  match v with
  | .obj fields =>
    match fields.find? (fun p => p.1 = k) with
    | some p => p.2
    | none => .jsUndefined
  | _ => .jsUndefined

/-- JavaScript truthiness of a `JVal` (`undefined`, `null`, `false`, `0`
and `""` are falsy; objects and arrays are always truthy). -/
def jsTruthy : JVal → Bool
  | .jsUndefined => false
  | .null => false
  | .bool b => b
  | .num n => n != 0
  | .str s => s != ""
  | .arr _ => true
  | .obj _ => true

/-- JavaScript `a || b` on values: `a` if truthy, else `b`. -/
def jOr (a b : JVal) : JVal :=
  if jsTruthy a then a else b

/-- Is the value the literal `false`?  This is what the strict comparison
`x !== false` in the worker inspects (only the boolean `false` matches). -/
def isFalseLit : JVal → Bool
  | .bool false => true
  | _ => false

/-! ## The `push` handler of `src/unnamed/part_002`

The handler starts from a hard-coded default `notificationData`, overrides
it field by field when the event carries a body that parses as JSON, and
always calls `showNotification`.  The body is modelled by the outcome of
`event.data` / `event.data.json()`:

* `none`               — `event.data` is absent,
* `some (.error ())`   — `event.data.json()` throws (body not valid JSON),
* `some (.ok v)`       — the body parsed to the JSON value `v`.
-/

/-- The mutable `notificationData` object of the `push` handler. -/
structure PushNotificationData where
  title : JVal
  body : JVal
  icon : JVal
  badge : JVal
  tag : JVal
  requireInteraction : Bool
  actions : JVal
  data : JVal

/-- The default actions of the part_002 worker: view / dismiss. -/
def defaultPushActions : JVal :=
  .arr
    [ .obj [("action", .str "view"), ("title", .str "Просмотреть"),
            ("icon", .str "/icons/view.png")],
      .obj [("action", .str "dismiss"), ("title", .str "Закрыть"),
            ("icon", .str "/icons/close.png")] ]

/-- The hard-coded default `notificationData` of the part_002 `push`
handler. -/
def defaultPushData : PushNotificationData :=
  { title := .str "Новое уведомление"
    body := .str "У вас есть новое уведомление"
    icon := .str "/favicon.ico"
    badge := .str "/favicon.ico"
    tag := .str "notification"
    requireInteraction := true
    actions := defaultPushActions
    data := .obj [] }

/-- The field-by-field override the handler applies to the defaults once
the body parsed to `pd` (lines 46–56 of part_002). -/
def overridePushData (pd : JVal) : PushNotificationData :=
  let d := defaultPushData
  { title := jOr (jGet pd "title") d.title
    body := jOr (jGet pd "message") (jOr (jGet pd "body") d.body)
    icon := jOr (jGet pd "icon") d.icon
    badge := jOr (jGet pd "badge") d.badge
    tag := jOr (jGet pd "category") (jOr (jGet pd "tag") d.tag)
    data := jOr (jGet pd "payload") (jOr (jGet pd "data") (.obj []))
    actions := jOr (jGet pd "actions") d.actions
    requireInteraction := !(isFalseLit (jGet pd "requireInteraction")) }

/-- The `notificationData` value the handler holds when it reaches the
display call: defaults when there is no body or the body fails to parse
(the parse error is caught and logged), the override otherwise. -/
def pushNotificationData (body : Option (Except Unit JVal)) :
    PushNotificationData :=
  match body with
  | none => defaultPushData
  | some (.error _) => defaultPushData
  | some (.ok pd) => overridePushData pd

/-- One `showNotification` invocation as issued by part_002 (title plus
the options object, including the constants `silent: false` and the
vibration pattern). -/
structure ShowCall where
  title : JVal
  body : JVal
  icon : JVal
  badge : JVal
  tag : JVal
  data : JVal
  actions : JVal
  requireInteraction : Bool
  silent : Bool
  vibrate : List Nat

/-- The display call part_002 builds from its `notificationData`. -/
def mkShowCall (d : PushNotificationData) : ShowCall :=
  { title := d.title, body := d.body, icon := d.icon, badge := d.badge
    tag := d.tag, data := d.data, actions := d.actions
    requireInteraction := d.requireInteraction
    silent := false, vibrate := [200, 100, 200] }

/-- The list of display calls the part_002 `push` handler issues for a
given body: always exactly one, wrapped in `event.waitUntil`. -/
def pushDisplays (body : Option (Except Unit JVal)) : List ShowCall :=
  [mkShowCall (pushNotificationData body)]

/-! ## The `push` handler of `src/frontend/static/js/service-worker.js`

This simpler worker variant guards its whole body on the presence of
`event.data`; the JSON parse is *not* wrapped in a `try`, so a body that
fails to parse aborts the handler before any display call. -/

/-- One `showNotification` invocation as issued by service-worker.js. -/
structure SwShowCall where
  title : JVal
  body : JVal
  icon : JVal
  badge : JVal
  image : JVal
  data : JVal
  actions : JVal
  requireInteraction : Bool
  vibrate : List Nat

/-- The default actions of service-worker.js: confirm / reject / details. -/
def swDefaultActions : JVal :=
  .arr
    [ .obj [("action", .str "confirm"), ("title", .str "Подтвердить")],
      .obj [("action", .str "reject"), ("title", .str "Отклонить")],
      .obj [("action", .str "details"), ("title", .str "Подробнее")] ]

/-- The display call service-worker.js builds from the parsed body
(`requireInteraction` is the constant `true` here). -/
def swBuildShow (d : JVal) : SwShowCall :=
  { title := jGet d "title"
    body := jGet d "message"
    icon := jOr (jGet d "icon") (.str "/static/notification-icon.png")
    badge := jOr (jGet d "badge") (.str "/static/badge-icon.png")
    image := jGet d "image"
    data := jGet d "data"
    actions := jOr (jGet d "actions") swDefaultActions
    requireInteraction := true
    vibrate := [200, 100, 200] }

/-- Display calls issued by the service-worker.js `push` handler:
nothing without `event.data` (the whole body is inside `if (event.data)`),
nothing when `event.data.json()` throws (no `try` around the parse), one
call otherwise. -/
def swPushDisplays (eventData : Option (Except Unit JVal)) : List SwShowCall :=
  match eventData with
  | none => []
  | some (.error _) => []
  | some (.ok d) => [swBuildShow d]

/-! ## Key Codec (`urlB64ToUint8Array`)

`notification.service.ts` lines 232–245 and part_023 lines 91–104 share
the same routine: restore `=` padding, substitute the url-safe alphabet
back to standard base64, run `atob` and copy the character codes into a
byte array.  `atob` is modelled by a forgiving base64 decoder over char
lists; a failed decode (`atob` throwing `InvalidCharacterError`) is
`none`. -/

/-- Value of a standard-base64 alphabet character (`A–Z a–z 0–9 + /`),
`none` for anything else, `=` included. -/
def b64Val (c : Char) : Option Nat :=
  if 65 ≤ c.toNat ∧ c.toNat ≤ 90 then some (c.toNat - 65)
  else if 97 ≤ c.toNat ∧ c.toNat ≤ 122 then some (c.toNat - 97 + 26)
  else if 48 ≤ c.toNat ∧ c.toNat ≤ 57 then some (c.toNat - 48 + 52)
  else if c.toNat = 43 then some 62
  else if c.toNat = 47 then some 63
  else none

/-- Model of `atob` on a character list: groups of four characters produce three
bytes; a final `xx==` group produces one byte and a final `xxx=` group
two; any other shape (length not a multiple of four, stray `=`, character
outside the alphabet) fails. -/
def atobChars : List Char → Option (List Nat)
  | [] => some []
  | a :: b :: c :: d :: rest =>
    match b64Val a, b64Val b with
    | some va, some vb =>
      if c = '=' then
        if d = '=' ∧ rest = [] then some [va * 4 + vb / 16] else none
      else
        match b64Val c with
        | some vc =>
          if d = '=' then
            if rest = [] then some [va * 4 + vb / 16, vb % 16 * 16 + vc / 4]
            else none
          else
            match b64Val d with
            | some vd =>
              match atobChars rest with
              | some t =>
                some ((va * 4 + vb / 16) :: (vb % 16 * 16 + vc / 4) ::
                      (vc % 4 * 64 + vd) :: t)
              | none => none
            | none => none
        | none => none
    | _, _ => none
  | _ => none

/-- The `-`→`+`, `_`→`/` substitution (codepoints 45 and 95). -/
def substStd (c : Char) : Char :=
  if c.toNat = 45 then '+' else if c.toNat = 95 then '/' else c

/-- The codec `urlB64ToUint8Array`: append `(4 - len % 4) % 4` characters of `=`,
substitute to the standard alphabet, decode.  The byte array copies the
decoded character codes one-to-one, so it is the decoded byte list
itself. -/
def urlB64ToUint8Array (s : String) : Option (List Nat) :=
  atobChars ((s.data ++ List.replicate ((4 - s.length % 4) % 4) '=').map substStd)

/-- Characters of the base64url alphabet (`A–Z a–z 0–9 - _`). -/
def isB64urlChar (c : Char) : Bool :=
  (65 ≤ c.toNat && c.toNat ≤ 90) || (97 ≤ c.toNat && c.toNat ≤ 122) ||
  (48 ≤ c.toNat && c.toNat ≤ 57) || c.toNat = 45 || c.toNat = 95

/-- A valid base64url input: alphabet characters only, and a length that
is not ≡ 1 (mod 4) (such a length cannot arise from base64url encoding
and `atob` rejects its three-`=` padding). -/
def isValidB64url (s : String) : Bool :=
  s.data.all isB64urlChar && s.length % 4 != 1

/-! ## The page-side `NotificationService`
(`src/frontend/src/services/notification.service.ts`)

The instance fields `swRegistration` (held / null), `isSubscribed` and the
cached `vapidPublicKey` form the state.  Each operation takes the outcomes
of the external calls it may issue as an explicit environment and returns
its boolean result, the state after the call, and a trace of the backend /
platform calls it issued. -/

/-- The mutable fields of the `NotificationService` singleton.
`vapidPublicKey` is `none` for `null`/`undefined` and `some s` for a
string `s` (the empty string is falsy, like `null`). -/
structure NSState where
  swRegistration : Bool
  isSubscribed : Bool
  vapidPublicKey : Option String

/-- A freshly constructed service: no registration, not subscribed, no
cached key. -/
def freshNSState : NSState :=
  { swRegistration := false, isSubscribed := false, vapidPublicKey := none }

/-- JavaScript truthiness of the `vapidPublicKey` field. -/
def vapidTruthy : Option String → Bool
  | none => false
  | some s => s != ""

/-- Method `getVapidPublicKey`: return the cached key if truthy; otherwise issue
the GET, store whatever string the response carried (`fetchVapid = .ok v`)
and throw if it is falsy, or rethrow the transport error
(`fetchVapid = .error ()`).  The returned state keeps the assignment that
happened before the falsy-check throw. -/
def getVapidPublicKey (st : NSState) (fetchVapid : Except Unit (Option String)) :
    Except Unit String × NSState :=
  if vapidTruthy st.vapidPublicKey then (.ok (st.vapidPublicKey.getD ""), st)
  else
    match fetchVapid with
    | .error _ => (.error (), st)
    | .ok v =>
      let st1 := { st with vapidPublicKey := v }
      if vapidTruthy v then (.ok (v.getD ""), st1) else (.error (), st1)

/-- Environment of `initialize()`: capability checks and the outcomes of
worker registration, the `getSubscription` probe (`.ok b` = a subscription
object was (`b = true`) / was not (`b = false`) returned) and the VAPID
key fetch. -/
structure InitEnv where
  hasServiceWorker : Bool
  hasPushManager : Bool
  registerResult : Except Unit Unit
  probeResult : Except Unit Bool
  fetchVapid : Except Unit (Option String)

/-- Method `initialize()` of `NotificationService`: capability checks, worker
registration, subscription probe, VAPID key fetch — all inside one `try`
whose `catch` returns `false`.  State mutations made before a failing step
survive (the fields are assigned as the steps succeed). -/
def initService (st : NSState) (env : InitEnv) : Bool × NSState :=
  if !env.hasServiceWorker then (false, st)
  else if !env.hasPushManager then (false, st)
  else
    match env.registerResult with
    | .error _ => (false, st)
    | .ok _ =>
      let st1 := { st with swRegistration := true }
      match env.probeResult with
      | .error _ => (false, st1)
      | .ok hasSub =>
        let st2 := { st1 with isSubscribed := hasSub }
        match getVapidPublicKey st2 env.fetchVapid with
        | (.error _, st3) => (false, st3)
        | (.ok _, st3) => (true, st3)

/-- The options object passed to `pushManager.subscribe`. -/
structure PushSubscribeOptions where
  userVisibleOnly : Bool
  applicationServerKey : Option (List Nat)

/-- Environment of `subscribe(userId)`: the VAPID fetch outcome (used only
when no truthy key is cached), the platform `pushManager.subscribe`
outcome, and the backend POST outcome. -/
structure SubscribeEnv where
  fetchVapid : Except Unit (Option String)
  platformSubscribe : Except Unit Unit
  postSubscribe : Except Unit Unit

/-- Trace of `subscribe`: the options of each `pushManager.subscribe`
call issued, and how many POSTs to `/notifications/subscribe` were
issued. -/
structure SubscribeTrace where
  platformSubscribeCalls : List PushSubscribeOptions
  subscribePosts : Nat

/-- Method `subscribe(userId)` of `NotificationService`: throw if no registration
is held; get the VAPID key; decode it (`atob` may throw); create the
platform subscription with `userVisibleOnly: true`; POST
`{user_id, subscription_info}`; only then set `isSubscribed`.  Every
throw is caught and becomes `false`. -/
def subscribe (st : NSState) (env : SubscribeEnv) :
    Bool × NSState × SubscribeTrace :=
  if !st.swRegistration then (false, st, ⟨[], 0⟩)
  else
    match getVapidPublicKey st env.fetchVapid with
    | (.error _, st1) => (false, st1, ⟨[], 0⟩)
    | (.ok key, st1) =>
      match urlB64ToUint8Array key with
      | none => (false, st1, ⟨[], 0⟩)
      | some bytes =>
        let opts : PushSubscribeOptions :=
          { userVisibleOnly := true, applicationServerKey := some bytes }
        match env.platformSubscribe with
        | .error _ => (false, st1, ⟨[opts], 0⟩)
        | .ok _ =>
          match env.postSubscribe with
          | .error _ => (false, st1, ⟨[opts], 1⟩)
          | .ok _ => (true, { st1 with isSubscribed := true }, ⟨[opts], 1⟩)

/-- Environment of `unsubscribe(userId)`: outcome of the
`getSubscription` probe, of `subscription.unsubscribe()` (the platform
revoke), and of the backend DELETE. -/
structure UnsubEnv where
  probeResult : Except Unit Bool
  revokeResult : Except Unit Unit
  deleteResult : Except Unit Unit

/-- Trace of an unsubscribe operation: number of platform revoke calls and
of DELETE requests to the backend unsubscribe endpoint. -/
structure UnsubTrace where
  revokeCalls : Nat
  deleteCalls : Nat

/-- The tail of `NotificationService.unsubscribe` after the optional
revoke: issue the DELETE; on failure return `false` with `isSubscribed`
untouched, on success clear `isSubscribed` and return `true`. -/
def nsUnsubDelete (st : NSState) (env : UnsubEnv) (revokes : Nat) :
    Bool × NSState × UnsubTrace :=
  match env.deleteResult with
  | .error _ => (false, st, ⟨revokes, 1⟩)
  | .ok _ => (true, { st with isSubscribed := false }, ⟨revokes, 1⟩)

/-- Method `unsubscribe(userId)` of `NotificationService`: when a registration is
held, probe for an existing subscription and revoke it if present; then —
also when no registration or no subscription exists — issue the DELETE.
Every throw is caught and becomes `false`, with all state mutations of the
failing run kept. -/
def unsubscribe (st : NSState) (env : UnsubEnv) :
    Bool × NSState × UnsubTrace :=
  if st.swRegistration then
    match env.probeResult with
    | .error _ => (false, st, ⟨0, 0⟩)
    | .ok true =>
      match env.revokeResult with
      | .error _ => (false, st, ⟨1, 0⟩)
      | .ok _ => nsUnsubDelete st env 1
    | .ok false => nsUnsubDelete st env 0
  else nsUnsubDelete st env 0

/-! ## The page-side `PushNotificationClient` (`src/unnamed/part_023`) -/

/-- The mutable fields of `PushNotificationClient`. -/
structure ClientState where
  swRegistration : Bool
  isSubscribed : Bool

/-- Method `unsubscribeUser(userId)` of `PushNotificationClient`: probe for a
subscription; only when one exists revoke it, DELETE on the backend,
clear the flag and return `true`; with no subscription return `false`
without issuing any backend call.  (With no registration held, reading
`this.swRegistration.pushManager` throws a TypeError that the `catch`
turns into `false`.) -/
def unsubscribeUser (st : ClientState) (env : UnsubEnv) :
    Bool × ClientState × UnsubTrace :=
  if !st.swRegistration then (false, st, ⟨0, 0⟩)
  else
    match env.probeResult with
    | .error _ => (false, st, ⟨0, 0⟩)
    | .ok false => (false, st, ⟨0, 0⟩)
    | .ok true =>
      match env.revokeResult with
      | .error _ => (false, st, ⟨1, 0⟩)
      | .ok _ =>
        match env.deleteResult with
        | .error _ => (false, st, ⟨1, 1⟩)
        | .ok _ => (true, { st with isSubscribed := false }, ⟨1, 1⟩)

/-! ## The `notificationclick` handler of `src/unnamed/part_002` -/

/-- A displayed notification as seen by the click handler. -/
structure NotifInfo where
  title : JVal
  body : JVal
  tag : JVal
  data : JVal

/-- An open window client as seen by `clients.matchAll`: its URL and
whether it exposes `focus`. -/
structure ClientInfo where
  url : String
  canFocus : Bool

/-- Does the character list start with the given character list? -/
def charsStartWith : List Char → List Char → Bool
  | [], _ => true
  | _ :: _, [] => false
  | a :: as, b :: bs => a = b && charsStartWith as bs

/-- Does the second character list contain the first as a contiguous
segment (the semantics of `String.includes`)? -/
def charsHaveSeg (needle : List Char) : List Char → Bool
  | [] => charsStartWith needle []
  | c :: rest => charsStartWith needle (c :: rest) || charsHaveSeg needle rest

/-- JavaScript `hay.includes(needle)` on strings. -/
def strIncludes (hay needle : String) : Bool :=
  charsHaveSeg needle.data hay.data

/-- The matching test of the handler's loop:
`client.url.includes(self.location.origin) && 'focus' in client`. -/
def clientMatches (origin : String) (c : ClientInfo) : Bool :=
  strIncludes c.url origin && c.canFocus

/-- Index of the first matching client in the `matchAll` list. -/
def findClientIdx (origin : String) : List ClientInfo → Option Nat
  | [] => none
  | c :: rest =>
    if clientMatches origin c then some 0
    else (findClientIdx origin rest).map (· + 1)

/-- The structured message the handler posts:
`{type, action, data, notification: {title, body, tag}}`. -/
structure ClickMessage where
  typ : String
  action : Option String
  data : JVal
  notifTitle : JVal
  notifBody : JVal
  notifTag : JVal

/-- Where a posted message went: an existing (focused) client, or the
client returned by `openWindow`. -/
inductive MsgTarget where
  | existing (idx : Nat)
  | openedWindow

/-- Effects of one `notificationclick` run. -/
structure ClickTrace where
  closedNotification : Bool
  focusedClient : Option Nat
  postedMessages : List (MsgTarget × ClickMessage)
  openedWindows : List JVal
  backendCalls : Nat

/-- Builds the `NOTIFICATION_CLICK` message of part_002. -/
def mkClickMessage (action : Option String) (data : JVal) (n : NotifInfo) :
    ClickMessage :=
  { typ := "NOTIFICATION_CLICK", action := action, data := data
    notifTitle := n.title, notifBody := n.body, notifTag := n.tag }

/-- URL resolution when no open page matched: `data.url` if truthy, else
`data.viewUrl` for the `view` action, else the origin
(lines 125–132 of part_002). -/
def resolveOpenUrl (origin : String) (action : Option String) (data : JVal) :
    JVal :=
  if jsTruthy (jGet data "url") = true then jGet data "url"
  else if action = some "view" ∧ jsTruthy (jGet data "viewUrl") = true then
    jGet data "viewUrl"
  else .str origin

/-- The part_002 `notificationclick` handler.  `action` is `none` for a
plain body click (an empty `event.action`), `some a` for the
action-button `a`; `ow` says whether `clients.openWindow` returned a
client.  The notification is closed first; `dismiss` stops there; any
other interaction focuses and messages the first matching open client,
or opens one window at the resolved URL (messaging it when a client is
returned).  The handler issues no backend call. -/
def notificationClick (origin : String) (action : Option String)
    (n : NotifInfo) (clientList : List ClientInfo) (ow : Bool) : ClickTrace :=
  let data := jOr n.data (.obj [])
  if action = some "dismiss" then
    { closedNotification := true, focusedClient := none, postedMessages := []
      openedWindows := [], backendCalls := 0 }
  else
    match findClientIdx origin clientList with
    | some i =>
      { closedNotification := true, focusedClient := some i
        postedMessages := [(.existing i, mkClickMessage action data n)]
        openedWindows := [], backendCalls := 0 }
    | none =>
      { closedNotification := true, focusedClient := none
        postedMessages :=
          if ow then [(.openedWindow, mkClickMessage action data n)] else []
        openedWindows := [resolveOpenUrl origin action data], backendCalls := 0 }

/-! ## The `pushsubscriptionchange` handler of `src/unnamed/part_002` -/

/-- Environment of the handler: whether `event.oldSubscription` is
present, the key found at `oldSubscription?.options?.applicationServerKey`
(`none` when any link of the optional chain is absent), and the outcome of
the platform re-subscribe. -/
structure PscEnv where
  oldSubPresent : Bool
  oldKey : Option (List Nat)
  platformSubscribe : Except Unit Unit

/-- One `fetch` to the update-subscription endpoint, with its method and
whether the JSON body carried the old / the new subscription. -/
structure UpdateFetch where
  url : String
  method : String
  hasOldSubscription : Bool
  hasNewSubscription : Bool

/-- Effects of one `pushsubscriptionchange` run: the re-subscribe calls
issued, the backend fetches issued, and whether the promise chain was
handed to `event.waitUntil`. -/
structure PscTrace where
  subscribeCalls : List PushSubscribeOptions
  updateFetches : List UpdateFetch
  waitUntilUsed : Bool

/-- The part_002 `pushsubscriptionchange` handler: re-subscribe with
`userVisibleOnly: true` and the old subscription's key (when the optional
chain yields one), then POST `{oldSubscription, newSubscription}` to
`/api/v1/notifications/update-subscription`; a re-subscribe failure is
caught (only logged) and no fetch is issued.  The whole chain is passed
to `event.waitUntil`. -/
def pushSubscriptionChange (env : PscEnv) : PscTrace :=
  let key := if env.oldSubPresent then env.oldKey else none
  let opts : PushSubscribeOptions :=
    { userVisibleOnly := true, applicationServerKey := key }
  match env.platformSubscribe with
  | .error _ => { subscribeCalls := [opts], updateFetches := [], waitUntilUsed := true }
  | .ok _ =>
    { subscribeCalls := [opts]
      updateFetches :=
        [{ url := "/api/v1/notifications/update-subscription", method := "POST"
           hasOldSubscription := env.oldSubPresent, hasNewSubscription := true }]
      waitUntilUsed := true }

/-! ## Claims -/

/-- Helper: `isFalseLit v` holds exactly for the literal `false`. -/
theorem isFalseLit_eq_true_iff (v : JVal) :
    isFalseLit v = true ↔ v = .bool false := by
  cases v with
  | bool b => cases b <;> simp [isFalseLit]
  | _ => simp [isFalseLit]

/-- Claim C1: an inbound push event whose body is not valid JSON (the
`event.data.json()` call throws) still reaches the display call of the
part_002 `push` handler — exactly one `showNotification`, carrying the
hard-coded defaults, in particular the default title string; the parse
failure is caught, so it neither crashes the handler nor suppresses the
display. -/
theorem push_malformed_body_shows_defaults :
    pushDisplays (some (.error ())) = [mkShowCall defaultPushData] ∧
    (pushDisplays (some (.error ()))).length = 1 ∧
    (mkShowCall defaultPushData).title = JVal.str "Новое уведомление" ∧
    (mkShowCall defaultPushData).requireInteraction = true :=
  ⟨rfl, rfl, rfl, rfl⟩

/-- Claim C7: the display spec built by the part_002 `push` handler has
`requireInteraction = false` exactly when the body parsed to a payload
whose `requireInteraction` property is the literal `false`; a missing
body, an unparsable body, a payload omitting the property or setting it
to any other value all yield `true`. -/
theorem requireInteraction_iff_explicitly_false
    (body : Option (Except Unit JVal)) :
    (pushNotificationData body).requireInteraction = false ↔
      ∃ pd, body = some (.ok pd) ∧
        jGet pd "requireInteraction" = .bool false := by
  match body with
  | none => simp [pushNotificationData, defaultPushData]
  | some (.error _) => simp [pushNotificationData, defaultPushData]
  | some (.ok pd) =>
    simp only [pushNotificationData, overridePushData, Bool.not_eq_false',
      Except.ok.injEq, Option.some.injEq]
    rw [isFalseLit_eq_true_iff]
    constructor
    · intro h; exact ⟨pd, rfl, h⟩
    · rintro ⟨pd2, h2, h⟩
      cases h2
      exact h

/-- Claim C10: in the simpler worker variant (service-worker.js), a push
event that carries no data at all results in no display call — the whole
handler body is guarded by `if (event.data)` — even though every
subscription the page-side manager creates passes
`userVisibleOnly: true` to `pushManager.subscribe`. -/
theorem sw_push_without_data_shows_nothing :
    swPushDisplays none = [] ∧
    ∀ st env,
      ((subscribe st env).2.2.platformSubscribeCalls).all
        (fun o => o.userVisibleOnly) = true := by
  refine ⟨rfl, ?_⟩
  intro st env
  unfold subscribe
  repeat' split
  all_goals simp

/-- Claim C4: when no truthy VAPID key is cached and the key fetch fails
(transport error / HTTP failure), `subscribe` returns `false` rather than
throwing, issues no platform subscribe call and no subscription POST, and
leaves the `isSubscribed` flag unchanged. -/
theorem subscribe_keyfetch_failure_returns_false
    (st : NSState) (env : SubscribeEnv)
    (hreg : st.swRegistration = true)
    (hcache : vapidTruthy st.vapidPublicKey = false)
    (hfetch : env.fetchVapid = .error ()) :
    (subscribe st env).1 = false ∧
    (subscribe st env).2.2.subscribePosts = 0 ∧
    (subscribe st env).2.2.platformSubscribeCalls = [] ∧
    (subscribe st env).2.1.isSubscribed = st.isSubscribed := by
  simp [subscribe, getVapidPublicKey, hreg, hcache, hfetch]

/-- Witness for C4 at a concrete state and environment. -/
theorem subscribe_keyfetch_failure_witness :
    (subscribe
      { swRegistration := true, isSubscribed := false, vapidPublicKey := none }
      { fetchVapid := .error (), platformSubscribe := .ok (),
        postSubscribe := .ok () }).1 = false ∧
    (subscribe
      { swRegistration := true, isSubscribed := false, vapidPublicKey := none }
      { fetchVapid := .error (), platformSubscribe := .ok (),
        postSubscribe := .ok () }).2.2.subscribePosts = 0 ∧
    (subscribe
      { swRegistration := true, isSubscribed := false, vapidPublicKey := none }
      { fetchVapid := .error (), platformSubscribe := .ok (),
        postSubscribe := .ok () }).2.2.platformSubscribeCalls = [] ∧
    (subscribe
      { swRegistration := true, isSubscribed := false, vapidPublicKey := none }
      { fetchVapid := .error (), platformSubscribe := .ok (),
        postSubscribe := .ok () }).2.1.isSubscribed =
      ({ swRegistration := true, isSubscribed := false,
         vapidPublicKey := none } : NSState).isSubscribed :=
  subscribe_keyfetch_failure_returns_false _ _ rfl rfl rfl

/-- Environment refuting claim C3: capabilities present, worker
registration and subscription probe succeed, VAPID key fetch fails. -/
def envKeyFetchFails : InitEnv :=
  { hasServiceWorker := true, hasPushManager := true
    registerResult := .ok (), probeResult := .ok false
    fetchVapid := .error () }

/-- Counterexample to claim C3: with registration and probe succeeding
and the key fetch failing, `initialize()` returns `false`, not a truthy
result — `getVapidPublicKey` rethrows and the surrounding catch turns the
whole initialization into `false`. -/
theorem init_keyfetch_failure_counterexample :
    envKeyFetchFails.registerResult = .ok () ∧
    envKeyFetchFails.probeResult = .ok false ∧
    envKeyFetchFails.fetchVapid = .error () ∧
    ¬((initService
        { swRegistration := false, isSubscribed := false,
          vapidPublicKey := none } envKeyFetchFails).1 = true) := by
  refine ⟨rfl, rfl, rfl, ?_⟩
  decide

/-- Claim C3 amended: when the capabilities are present, worker
registration and the subscription probe succeed, no truthy key is cached
and the VAPID key fetch fails, `initialize()` returns `false` — the
key-fetch failure does fail initialization — while the registration and
the probed flag are retained in the state. -/
theorem init_keyfetch_failure_returns_false
    (st : NSState) (env : InitEnv) (b : Bool)
    (hsw : env.hasServiceWorker = true)
    (hpm : env.hasPushManager = true)
    (hregister : env.registerResult = .ok ())
    (hprobe : env.probeResult = .ok b)
    (hcache : vapidTruthy st.vapidPublicKey = false)
    (hfetch : env.fetchVapid = .error ()) :
    (initService st env).1 = false ∧
    (initService st env).2.swRegistration = true ∧
    (initService st env).2.isSubscribed = b := by
  simp [initService, getVapidPublicKey, hsw, hpm, hregister, hprobe,
    hcache, hfetch]

/-- Witness for the amended C3 at a concrete state and environment. -/
theorem init_keyfetch_failure_witness :
    (initService
      { swRegistration := false, isSubscribed := false, vapidPublicKey := none }
      envKeyFetchFails).1 = false ∧
    (initService
      { swRegistration := false, isSubscribed := false, vapidPublicKey := none }
      envKeyFetchFails).2.swRegistration = true ∧
    (initService
      { swRegistration := false, isSubscribed := false, vapidPublicKey := none }
      envKeyFetchFails).2.isSubscribed = false :=
  init_keyfetch_failure_returns_false _ _ false rfl rfl rfl rfl rfl rfl

/-- State refuting claim C5: a subscribed manager holding a registration. -/
def stSubscribed : NSState :=
  { swRegistration := true, isSubscribed := true, vapidPublicKey := none }

/-- Environment refuting claim C5: a subscription exists, the platform
revoke succeeds, the backend DELETE fails. -/
def envDeleteFails : UnsubEnv :=
  { probeResult := .ok true, revokeResult := .ok (), deleteResult := .error () }

/-- Counterexample to claim C5: when the backend DELETE fails,
`unsubscribe` does return `false` and does issue the DELETE, but the
internal `isSubscribed` flag is NOT cleared — the assignment sits after
the `await` of the DELETE, so the flag keeps its previous value `true`. -/
theorem unsubscribe_delete_failure_counterexample :
    (unsubscribe stSubscribed envDeleteFails).1 = false ∧
    (unsubscribe stSubscribed envDeleteFails).2.2.deleteCalls = 1 ∧
    ¬((unsubscribe stSubscribed envDeleteFails).2.1.isSubscribed = false) := by
  refine ⟨rfl, rfl, ?_⟩
  decide

/-- Claim C5 amended: whenever the backend DELETE fails (whatever the
earlier steps did), `unsubscribe` returns `false` and the state — the
`isSubscribed` flag included — is left exactly as it was: the flag is
cleared only after a successful DELETE. -/
theorem unsubscribe_delete_failure_keeps_state
    (st : NSState) (env : UnsubEnv)
    (hdelete : env.deleteResult = .error ()) :
    (unsubscribe st env).1 = false ∧
    (unsubscribe st env).2.1 = st := by
  unfold unsubscribe nsUnsubDelete
  rcases hr : st.swRegistration with _ | _ <;>
    rcases hp : env.probeResult with _ | b <;> simp [hdelete]
  rcases b with _ | _ <;> rcases hv : env.revokeResult with _ | _ <;>
    simp [hdelete]

/-- Witness for the amended C5 at the concrete counterexample state. -/
theorem unsubscribe_delete_failure_witness :
    (unsubscribe stSubscribed envDeleteFails).1 = false ∧
    (unsubscribe stSubscribed envDeleteFails).2.1 = stSubscribed :=
  unsubscribe_delete_failure_keeps_state _ _ rfl

/-- Environment refuting claim C2: the probe finds no subscription and
the backend DELETE would succeed. -/
def envNoSubscription : UnsubEnv :=
  { probeResult := .ok false, revokeResult := .ok (), deleteResult := .ok () }

/-- Counterexample to claim C2: on `PushNotificationClient.unsubscribeUser`
with no existing platform subscription, the call does return `false` and
issues no revoke — but it issues NO backend DELETE at all (the fetch sits
inside the `if (subscription)` block), not the claimed exactly one.
(The other cited variant, `NotificationService.unsubscribe`, issues the
DELETE but then returns `true`, refuting the claim's return value
instead.) -/
theorem unsubscribeUser_never_subscribed_counterexample :
    (unsubscribeUser { swRegistration := true, isSubscribed := false }
        envNoSubscription).1 = false ∧
    (unsubscribeUser { swRegistration := true, isSubscribed := false }
        envNoSubscription).2.2.revokeCalls = 0 ∧
    ¬((unsubscribeUser { swRegistration := true, isSubscribed := false }
        envNoSubscription).2.2.deleteCalls = 1) := by
  refine ⟨rfl, rfl, ?_⟩
  decide

/-- Claim C2 amended: with no existing platform subscription neither
variant both returns `false` and issues one DELETE.
`PushNotificationClient.unsubscribeUser` returns `false` without
throwing, with no platform revoke and no backend DELETE;
`NotificationService.unsubscribe` issues no revoke and exactly one
DELETE, but returns `true` when that DELETE succeeds. -/
theorem unsubscribe_never_subscribed_behaviour
    (cst : ClientState) (nst : NSState) (env : UnsubEnv)
    (hprobe : env.probeResult = .ok false)
    (hdelete : env.deleteResult = .ok ()) :
    (unsubscribeUser cst env).1 = false ∧
    (unsubscribeUser cst env).2.2.revokeCalls = 0 ∧
    (unsubscribeUser cst env).2.2.deleteCalls = 0 ∧
    (unsubscribe nst env).1 = true ∧
    (unsubscribe nst env).2.2.revokeCalls = 0 ∧
    (unsubscribe nst env).2.2.deleteCalls = 1 := by
  unfold unsubscribeUser unsubscribe nsUnsubDelete
  rcases cst.swRegistration with _ | _ <;>
    rcases nst.swRegistration with _ | _ <;>
      simp [hprobe, hdelete]

/-- Witness for the amended C2 at concrete states and environment. -/
theorem unsubscribe_never_subscribed_witness :
    (unsubscribeUser { swRegistration := true, isSubscribed := false }
        envNoSubscription).1 = false ∧
    (unsubscribeUser { swRegistration := true, isSubscribed := false }
        envNoSubscription).2.2.revokeCalls = 0 ∧
    (unsubscribeUser { swRegistration := true, isSubscribed := false }
        envNoSubscription).2.2.deleteCalls = 0 ∧
    (unsubscribe { swRegistration := true, isSubscribed := false,
                   vapidPublicKey := none } envNoSubscription).1 = true ∧
    (unsubscribe { swRegistration := true, isSubscribed := false,
                   vapidPublicKey := none } envNoSubscription).2.2.revokeCalls = 0 ∧
    (unsubscribe { swRegistration := true, isSubscribed := false,
                   vapidPublicKey := none } envNoSubscription).2.2.deleteCalls = 1 :=
  unsubscribe_never_subscribed_behaviour _ _ _ rfl rfl

/-- Environment refuting claim C9: an old subscription with key material
is present and the platform re-subscribe succeeds. -/
def envSubscriptionChanged : PscEnv :=
  { oldSubPresent := true, oldKey := some [4, 1, 2], platformSubscribe := .ok () }

/-- Counterexample to claim C9: the `pushsubscriptionchange` handler does
send the old and new subscriptions to the backend, but with a POST
request, not the claimed PUT. -/
theorem pushsubscriptionchange_method_counterexample :
    (pushSubscriptionChange envSubscriptionChanged).updateFetches.map
      (fun f => f.method) = ["POST"] ∧
    ¬((pushSubscriptionChange envSubscriptionChanged).updateFetches.map
      (fun f => f.method) = ["PUT"]) := by
  refine ⟨rfl, ?_⟩
  decide

/-- Claim C9 amended: for every `pushsubscriptionchange` event whose
platform re-subscribe succeeds, the worker creates exactly one
replacement subscription with `userVisibleOnly: true`, reusing the old
subscription's `applicationServerKey` when available, and sends the old
and new subscriptions to the backend update-subscription endpoint with a
POST (not PUT) request, inside the event's `waitUntil` extension. -/
theorem pushsubscriptionchange_resubscribes_and_posts
    (env : PscEnv) (hsub : env.platformSubscribe = .ok ()) :
    pushSubscriptionChange env =
      { subscribeCalls := [{ userVisibleOnly := true,
                             applicationServerKey :=
                               if env.oldSubPresent then env.oldKey else none }]
        updateFetches := [{ url := "/api/v1/notifications/update-subscription",
                            method := "POST",
                            hasOldSubscription := env.oldSubPresent,
                            hasNewSubscription := true }]
        waitUntilUsed := true } := by
  unfold pushSubscriptionChange
  rw [hsub]

/-- Witness for the amended C9 at the concrete environment. -/
theorem pushsubscriptionchange_witness :
    pushSubscriptionChange envSubscriptionChanged =
      { subscribeCalls := [{ userVisibleOnly := true,
                             applicationServerKey :=
                               if envSubscriptionChanged.oldSubPresent then
                                 envSubscriptionChanged.oldKey else none }]
        updateFetches := [{ url := "/api/v1/notifications/update-subscription",
                            method := "POST",
                            hasOldSubscription :=
                              envSubscriptionChanged.oldSubPresent,
                            hasNewSubscription := true }]
        waitUntilUsed := true } :=
  pushsubscriptionchange_resubscribes_and_posts _ rfl

/-- Example notification used by the C8 witness. -/
def exNotif : NotifInfo :=
  { title := .str "t", body := .str "b", tag := .str "g", data := .obj [] }

/-- Example matching open client used by the C8 witness. -/
def exClient : ClientInfo := { url := "xappx", canFocus := true }

/-- Claim C8: for every `notificationclick` handled by part_002 — after
the unconditional close — a `dismiss` action stops with no backend call,
no window opened and none focused; a plain body click (`action = none`)
with a matching open page focuses the first such page and posts it
exactly one structured `NOTIFICATION_CLICK` message; with no matching
page, exactly one window is opened at the resolved URL, which for a plain
click is `data.url` when truthy and the origin root otherwise. -/
theorem notificationclick_dispatch
    (origin : String) (action : Option String) (n : NotifInfo)
    (clientList : List ClientInfo) (ow : Bool) :
    (action = some "dismiss" →
      notificationClick origin action n clientList ow =
        { closedNotification := true, focusedClient := none,
          postedMessages := [], openedWindows := [], backendCalls := 0 }) ∧
    (action = none → ∀ i, findClientIdx origin clientList = some i →
      (notificationClick origin action n clientList ow).closedNotification
          = true ∧
      (notificationClick origin action n clientList ow).focusedClient
          = some i ∧
      (notificationClick origin action n clientList ow).postedMessages =
        [(.existing i, mkClickMessage none (jOr n.data (.obj [])) n)] ∧
      (notificationClick origin action n clientList ow).openedWindows = [] ∧
      (notificationClick origin action n clientList ow).backendCalls = 0) ∧
    (action = none → findClientIdx origin clientList = none →
      (notificationClick origin action n clientList ow).openedWindows =
        [resolveOpenUrl origin none (jOr n.data (.obj []))] ∧
      (notificationClick origin action n clientList ow).focusedClient
          = none ∧
      (notificationClick origin action n clientList ow).backendCalls = 0) ∧
    (∀ d, resolveOpenUrl origin none d =
      if jsTruthy (jGet d "url") = true then jGet d "url"
      else .str origin) := by
  refine ⟨?_, ?_, ?_, ?_⟩
  · intro h
    subst h
    simp [notificationClick]
  · intro h i hi
    subst h
    unfold notificationClick
    rw [if_neg (by simp), hi]
    simp
  · intro h hi
    subst h
    unfold notificationClick
    rw [if_neg (by simp), hi]
    simp
  · intro d
    unfold resolveOpenUrl
    by_cases hu : jsTruthy (jGet d "url") = true
    · rw [if_pos hu, if_pos hu]
    · rw [if_neg hu, if_neg hu, if_neg (by simp)]

/-- Witness for C8 at concrete scenarios: a dismiss click, a plain click
with a matching open page, and a plain click with no open page. -/
theorem notificationclick_dispatch_witness :
    (notificationClick "app" (some "dismiss") exNotif [exClient] false =
      { closedNotification := true, focusedClient := none,
        postedMessages := [], openedWindows := [], backendCalls := 0 }) ∧
    ((notificationClick "app" none exNotif [exClient] false).closedNotification
        = true ∧
     (notificationClick "app" none exNotif [exClient] false).focusedClient
        = some 0 ∧
     (notificationClick "app" none exNotif [exClient] false).postedMessages =
       [(.existing 0, mkClickMessage none (jOr exNotif.data (.obj []))
          exNotif)] ∧
     (notificationClick "app" none exNotif [exClient] false).openedWindows
        = [] ∧
     (notificationClick "app" none exNotif [exClient] false).backendCalls
        = 0) ∧
    ((notificationClick "app" none exNotif [] false).openedWindows =
       [resolveOpenUrl "app" none (jOr exNotif.data (.obj []))] ∧
     (notificationClick "app" none exNotif [] false).focusedClient = none ∧
     (notificationClick "app" none exNotif [] false).backendCalls = 0) :=
  ⟨(notificationclick_dispatch "app" (some "dismiss") exNotif [exClient]
      false).1 rfl,
   (notificationclick_dispatch "app" none exNotif [exClient] false).2.1
      rfl 0 (by decide),
   (notificationclick_dispatch "app" none exNotif [] false).2.2.1 rfl rfl⟩

/-- Helper: a character the decoder accepts is not the padding
character. -/
theorem ne_pad_of_b64Val_isSome {c : Char} (h : (b64Val c).isSome = true) :
    ¬(c = '=') := by
  intro he
  subst he
  have hpad : (b64Val '=').isSome = false := by decide
  rw [hpad] at h
  cases h

/-- Helper: substituting a base64url-alphabet character yields a
character the decoder accepts. -/
theorem b64Val_substStd_isSome {c : Char} (h : isB64urlChar c = true) :
    (b64Val (substStd c)).isSome = true := by
  unfold isB64urlChar at h
  simp only [Bool.or_eq_true, Bool.and_eq_true, decide_eq_true_eq] at h
  rcases h with (((⟨h1, h2⟩ | ⟨h1, h2⟩) | ⟨h1, h2⟩) | h1) | h1
  · have hs : substStd c = c := by
      unfold substStd
      rw [if_neg (by omega), if_neg (by omega)]
    rw [hs]
    unfold b64Val
    rw [if_pos ⟨h1, h2⟩]
    rfl
  · have hs : substStd c = c := by
      unfold substStd
      rw [if_neg (by omega), if_neg (by omega)]
    rw [hs]
    unfold b64Val
    rw [if_neg (by omega), if_pos ⟨h1, h2⟩]
    rfl
  · have hs : substStd c = c := by
      unfold substStd
      rw [if_neg (by omega), if_neg (by omega)]
    rw [hs]
    unfold b64Val
    rw [if_neg (by omega), if_neg (by omega), if_pos ⟨h1, h2⟩]
    rfl
  · have hs : substStd c = '+' := by
      unfold substStd
      rw [if_pos h1]
    rw [hs]
    decide
  · have hs : substStd c = '/' := by
      unfold substStd
      rw [if_neg (by omega), if_pos h1]
    rw [hs]
    decide

/-- Helper: on a list of accepted characters followed by the padding the
codec restores, the decode succeeds and the byte count is
`3·⌈len/4⌉ − padding`. -/
theorem atobChars_padded_length :
    ∀ (n : Nat) (l : List Char), l.length ≤ n →
      (∀ c ∈ l, (b64Val c).isSome = true) → l.length % 4 ≠ 1 →
      ∃ bytes,
        atobChars (l ++ List.replicate ((4 - l.length % 4) % 4) '=') =
          some bytes ∧
        bytes.length = 3 * ((l.length + 3) / 4) - (4 - l.length % 4) % 4 := by
  intro n
  induction n with
  | zero =>
    intro l hl _ _
    have hnil : l = [] := List.eq_nil_of_length_eq_zero (Nat.le_zero.mp hl)
    subst hnil
    exact ⟨[], rfl, rfl⟩
  | succ n ih =>
    intro l hl hvalid hmod
    rcases l with _ | ⟨a, _ | ⟨b, _ | ⟨c, _ | ⟨d, rest⟩⟩⟩⟩
    · exact ⟨[], rfl, rfl⟩
    · exact absurd rfl hmod
    · obtain ⟨va, hva⟩ := Option.isSome_iff_exists.mp (hvalid a (by simp))
      obtain ⟨vb, hvb⟩ := Option.isSome_iff_exists.mp (hvalid b (by simp))
      refine ⟨[va * 4 + vb / 16], ?_, ?_⟩
      · show atobChars [a, b, '=', '='] = _
        simp [atobChars, hva, hvb]
      · simp only [List.length_cons, List.length_nil]
    · obtain ⟨va, hva⟩ := Option.isSome_iff_exists.mp (hvalid a (by simp))
      obtain ⟨vb, hvb⟩ := Option.isSome_iff_exists.mp (hvalid b (by simp))
      obtain ⟨vc, hvc⟩ := Option.isSome_iff_exists.mp (hvalid c (by simp))
      have hcne : ¬(c = '=') := ne_pad_of_b64Val_isSome (by rw [hvc]; rfl)
      refine ⟨[va * 4 + vb / 16, vb % 16 * 16 + vc / 4], ?_, ?_⟩
      · show atobChars [a, b, c, '='] = _
        simp [atobChars, hva, hvb, hvc, hcne]
      · simp only [List.length_cons, List.length_nil]
    · obtain ⟨va, hva⟩ := Option.isSome_iff_exists.mp (hvalid a (by simp))
      obtain ⟨vb, hvb⟩ := Option.isSome_iff_exists.mp (hvalid b (by simp))
      obtain ⟨vc, hvc⟩ := Option.isSome_iff_exists.mp (hvalid c (by simp))
      obtain ⟨vd, hvd⟩ := Option.isSome_iff_exists.mp (hvalid d (by simp))
      have hcne : ¬(c = '=') := ne_pad_of_b64Val_isSome (by rw [hvc]; rfl)
      have hdne : ¬(d = '=') := ne_pad_of_b64Val_isSome (by rw [hvd]; rfl)
      have hlen : (a :: b :: c :: d :: rest).length = rest.length + 4 := by
        simp only [List.length_cons]
      have hmodr : rest.length % 4 ≠ 1 := by
        rw [hlen] at hmod
        omega
      obtain ⟨bytes, hbytes, hblen⟩ := ih rest
        (by rw [hlen] at hl; omega)
        (fun x hx => hvalid x (by simp [hx])) hmodr
      refine ⟨(va * 4 + vb / 16) :: (vb % 16 * 16 + vc / 4) ::
        (vc % 4 * 64 + vd) :: bytes, ?_, ?_⟩
      · have hpad : (4 - (a :: b :: c :: d :: rest).length % 4) % 4 =
            (4 - rest.length % 4) % 4 := by
          rw [hlen]
          omega
        rw [hpad, List.cons_append, List.cons_append, List.cons_append,
          List.cons_append]
        simp [atobChars, hva, hvb, hvc, hvd, hcne, hdne, hbytes]
      · simp only [List.length_cons, hblen, hlen]
        omega

/-- Claim C6: on every valid base64url input (alphabet characters only,
length not ≡ 1 mod 4, no padding), the codec decodes successfully to a
byte list of length `4·⌈n/4⌉·3/4 − padding` where
`padding = (4 − n % 4) % 4`; being a pure function, repeated calls yield
equal outputs. -/
theorem urlB64_decode_length (s : String) (h : isValidB64url s = true) :
    urlB64ToUint8Array s = urlB64ToUint8Array s ∧
    ∃ bytes, urlB64ToUint8Array s = some bytes ∧
      bytes.length =
        4 * ((s.length + 3) / 4) * 3 / 4 - (4 - s.length % 4) % 4 := by
  refine ⟨rfl, ?_⟩
  unfold isValidB64url at h
  rw [Bool.and_eq_true] at h
  obtain ⟨hall, hmodb⟩ := h
  rw [List.all_eq_true] at hall
  have hmod : s.length % 4 ≠ 1 := by simpa using hmodb
  have hslen : s.length = s.data.length := rfl
  have hllen : (s.data.map substStd).length = s.length := by
    rw [List.length_map, hslen]
  have hval : ∀ c ∈ s.data.map substStd, (b64Val c).isSome = true := by
    intro c hc
    rw [List.mem_map] at hc
    obtain ⟨x, hx, hxc⟩ := hc
    subst hxc
    exact b64Val_substStd_isSome (hall x hx)
  obtain ⟨bytes, hbytes, hblen⟩ :=
    atobChars_padded_length (s.data.map substStd).length
      (s.data.map substStd) le_rfl hval (by rw [hllen]; exact hmod)
  rw [hllen] at hbytes hblen
  refine ⟨bytes, ?_, ?_⟩
  · unfold urlB64ToUint8Array
    rw [List.map_append, List.map_replicate]
    have hpadchar : substStd '=' = '=' := by decide
    rw [hpadchar]
    exact hbytes
  · rw [hblen]
    omega

/-- Witness for C6 at the concrete input `"-_"` (which exercises both
alphabet substitutions and two characters of restored padding). -/
theorem urlB64_decode_length_witness :
    isValidB64url "-_" = true ∧
    (urlB64ToUint8Array "-_" = urlB64ToUint8Array "-_" ∧
     ∃ bytes, urlB64ToUint8Array "-_" = some bytes ∧
       bytes.length =
         4 * (("-_".length + 3) / 4) * 3 / 4 - (4 - "-_".length % 4) % 4) :=
  ⟨by decide, urlB64_decode_length "-_" (by decide)⟩
